import Mathlib

/-!
Verification development for the Raahi real-time presence & SOS session
coordinator (`app.py`).

The shallow embedding below translates the socket handlers and their shared
in-memory stores into pure Lean functions over an explicit `ServerState`.
Python dictionaries keyed by socket id (`ONLINE_USERS`, `USER_LOCATIONS`,
`SOS_RECORDS`, `ACTIVE_SOS_ROOMS`) become association lists with the same
overwrite/erase semantics.  Each handler takes the current wall-clock second
(`int(time.time())`) as an explicit argument and returns the new state
together with the list of socket emissions it performed.  The delayed
auto-resolve body (the code after `socketio.sleep(30)` in `handle_sos_alert`)
is modelled as its own step, `autoResolveFire`, so that arbitrary
interleavings with other events can be examined.
-/

namespace Raahi

/-- Payload values arriving on a socket event.  `num` is an int/float value
(floats are modelled as rationals), `nonNum` is a value `float()` raises on
(carrying its Python truthiness), and `none_` is Python `None`. -/
inductive PyVal where
  | num (q : ℚ)
  | nonNum (truthy : Bool)
  | none_
deriving DecidableEq

/-- Python truthiness of a payload value (`0`, `None` and declared-falsy
non-numbers are falsy). -/
def PyVal.truthy : PyVal → Bool
  | .num q => decide (q ≠ 0)
  | .nonNum t => t
  | .none_ => false

/-- Model of Python `float(v)`: succeeds exactly on numeric values. -/
def PyVal.toFloat? : PyVal → Option ℚ
  | .num q => some q
  | _ => none

/-- Python `int()` truncates toward zero. -/
def ratTrunc (q : ℚ) : ℤ := if 0 ≤ q then ⌊q⌋ else ⌈q⌉

/-- Model of Python `int(v)` on payload values: succeeds on numeric values,
truncating toward zero. -/
def pyToInt? : PyVal → Option ℤ
  | .num q => some (ratTrunc q)
  | _ => none

/-- A socket event payload dictionary restricted to the keys the handlers
read.  `none` means the key is absent; `some .none_` means the key is present
with value `None`. -/
structure Payload where
  lat : Option PyVal := none
  lng : Option PyVal := none
  ts : Option PyVal := none
  accuracy : Option PyVal := none
deriving DecidableEq

def Payload.empty : Payload := {}

/-- Python `d.get(k)` (default `None`). -/
def dictGet (field : Option PyVal) : PyVal := field.getD PyVal.none_

/-- Python `d.get(k, default)`: the default applies only when the key is
absent, not when it is present with value `None`. -/
def dictGetD (field : Option PyVal) (d : PyVal) : PyVal := field.getD d

/-- A validated entry of `USER_LOCATIONS` (the `loc_data` dict built by
`location_update` after successful conversion). -/
structure Loc where
  lat : ℚ
  lng : ℚ
  ts : ℤ
  accuracy : Option ℚ
deriving DecidableEq

/-- The `loc_data` dict viewed as a payload dictionary (it is the very same
dict object that gets appended to an SOS record location log). -/
def Loc.toPayload (l : Loc) : Payload :=
  { lat := some (.num l.lat), lng := some (.num l.lng), ts := some (.num l.ts),
    accuracy := some (match l.accuracy with | some a => .num a | none => .none_) }

/-- An entry of `ONLINE_USERS` as built by the `join` handler. -/
structure User where
  id : String
  name : String
  email : Option String
deriving DecidableEq

/-- An entry of `SOS_RECORDS` as built by `handle_sos_alert`.  `start_ts`
keeps the raw payload value (`initial_location.get("ts", int(time.time()))`
performs no numeric conversion); `end_ts` is absent until resolution. -/
structure SOSRecord where
  id : String
  user_sid : String
  user_name : String
  start_ts : PyVal
  status : String
  end_ts : Option ℤ
  location_log : List Payload
deriving DecidableEq

/-- A Python dict keyed by strings, as an association list without duplicate
keys. -/
abbrev Dict (α : Type) : Type := List (String × α)

/-- Dict lookup, `m.get(k)`. -/
def dlookup {α : Type} : Dict α → String → Option α
  | [], _ => none
  | kv :: rest, k => if kv.1 = k then some kv.2 else dlookup rest k

/-- Dict assignment `m[k] = v`: overwrites in place, else appends. -/
def dinsert {α : Type} : Dict α → String → α → Dict α
  | [], k, v => [(k, v)]
  | kv :: rest, k, v => if kv.1 = k then (k, v) :: rest else kv :: dinsert rest k v

/-- Dict removal `m.pop(k, None)`. -/
def derase {α : Type} : Dict α → String → Dict α
  | [], _ => []
  | kv :: rest, k => if kv.1 = k then derase rest k else kv :: derase rest k

/-- The shared mutable stores of the real-time layer. -/
structure ServerState where
  online_users : Dict User
  user_locations : Dict Loc
  sos_records : Dict SOSRecord
  active_sos_rooms : Dict String
deriving DecidableEq

def ServerState.empty : ServerState :=
  { online_users := [], user_locations := [], sos_records := [], active_sos_rooms := [] }

/-- Socket emissions performed by a handler, tagged with their target room.
Payload fields that no claim inspects (presence/location snapshots, the
nearby-places list, the rounded carbon/duration figures of the final event)
are elided; the final event keeps its `location_updates` sample count. -/
inductive Emission where
  | presence
  | locations_update
  | sos_location (room : Option String)
  | sos_started (toSid : String) (sos_id : String)
  | sos_resolved (room : String) (sos_id : String)
  | sos_resolved_final (toSid : String) (sos_id : String) (location_updates : Nat)
  | sos_error (toSid : String) (message : String)
deriving DecidableEq

/-- Python `x or default` for optional strings: the default applies to a
missing key and to a falsy (empty) string. -/
def strOr (v : Option String) (d : String) : String :=
  match v with
  | some s => if s = "" then d else s
  | none => d

/-- The `user` dict of a `join` payload. -/
structure JoinUser where
  id : Option String := none
  name : Option String := none
  email : Option String := none

/-- The `join` handler: registers the connection in `ONLINE_USERS` and
re-broadcasts presence.  (Room joins have no effect on the shared stores and
are not modelled.) -/
def on_join (s : ServerState) (sid : String) (user : JoinUser) :
    ServerState × List Emission :=
  let u : User :=
    { id := strOr user.id ("u_" ++ sid.take 6),
      name := strOr user.name (strOr user.email "Anonymous"),
      email := user.email }
  ({ s with online_users := dinsert s.online_users sid u }, [.presence])

/-- `float(accuracy) if accuracy is not None else None` inside the `loc_data`
dict literal: `None` stays `None`, a non-`None` value must convert. -/
def accOk : PyVal → Option (Option ℚ)
  | .none_ => some none
  | v => v.toFloat?.map some

/-- Construction of the `loc_data` dict: every conversion in the dict literal
must succeed, otherwise the exception aborts the whole update. -/
def buildLoc (lat lng ts accuracy : PyVal) : Option Loc := do
  let la ← lat.toFloat?
  let ln ← lng.toFloat?
  let ti ← pyToInt? ts
  let acc ← accOk accuracy
  pure { lat := la, lng := ln, ts := ti, accuracy := acc }

/-- The `location_update` handler.  A missing/`None` lat or lng clears the
tracker entry; a conversion failure is swallowed by the bare `except` (which
`return`s before `emit_locations`), leaving the state untouched and emitting
nothing; a valid sample overwrites the tracker entry, is appended to the
active SOS record's log when one exists, and is followed by the `sos_location`
and `locations_update` emissions. -/
def location_update (s : ServerState) (sid : String) (data : Payload) (now : ℤ) :
    ServerState × List Emission :=
  let lat := dictGet data.lat
  let lng := dictGet data.lng
  let ts := if (dictGet data.ts).truthy then dictGet data.ts else .num (now : ℚ)
  let accuracy := dictGet data.accuracy
  if lat = PyVal.none_ ∨ lng = PyVal.none_ then
    ({ s with user_locations := derase s.user_locations sid }, [.locations_update])
  else
    match buildLoc lat lng ts accuracy with
    | none => (s, [])
    | some loc =>
      let s1 := { s with user_locations := dinsert s.user_locations sid loc }
      let sosId := dlookup s1.active_sos_rooms sid
      let s2 :=
        match sosId with
        | none => s1
        | some r =>
          match dlookup s1.sos_records r with
          | none => s1
          | some record0 =>
            let record1 := { record0 with
              location_log := record0.location_log ++ [loc.toPayload] }
            { s1 with sos_records := dinsert s1.sos_records r record1 }
      (s2, [.sos_location sosId, .locations_update])

/-- `sos_id = f"sos_-int(time.time())-_-sid[:4]-"`: wall-clock second plus the
first four characters of the socket id. -/
def genSosId (now : ℤ) (sid : String) : String :=
  "sos_" ++ toString now ++ "_" ++ sid.take 4

/-- `send_emergency_email_to_relative`: returns `False` without sending when
SMTP is unconfigured, and wraps the whole SMTP exchange in `try/except`,
returning `False` on any transmission error — it never raises. -/
def send_emergency_email_to_relative (smtpConfigured transmissionOk : Bool) : Bool :=
  if ¬ smtpConfigured then false else transmissionOk

/-- Result of running `handle_sos_alert` up to the scheduling point.
`email_args` records the `(lat, lng)` pair passed to the emergency email
helper and `email_sent` its discarded return value; `crashed` records whether
an uncaught exception escaped the handler
(`get_nearby_emergency_places_mock` evaluates `lat + 0.002`, a `TypeError`
when lat or lng is not a number). -/
structure HandlerResult where
  state : ServerState
  emissions : List Emission
  email_args : Option (PyVal × PyVal)
  email_sent : Bool
  crashed : Bool
deriving DecidableEq

/-- Steps A-C and the client response of `handle_sos_alert`: the emergency
email is attempted (outcome recorded and otherwise ignored), then
`get_nearby_emergency_places_mock(lat, lng)` either crashes on a non-numeric
coordinate or the `sos_started` acknowledgment is emitted to the caller. -/
def sosAlertFinish (s2 : ServerState) (sid sosId : String) (lat lng : PyVal)
    (emailSent : Bool) : HandlerResult :=
  match lat, lng with
  | .num _, .num _ => ⟨s2, [.sos_started sid sosId], some (lat, lng), emailSent, false⟩
  | _, _ => ⟨s2, [], some (lat, lng), emailSent, true⟩

/-- The `sos_alert` handler up to `socketio.sleep(30)`; the delayed tail is
`autoResolveFire`.  The email outcome parameters mirror the environment of
`send_emergency_email_to_relative`, whose return value the handler ignores. -/
def handle_sos_alert (s : ServerState) (sid : String) (data : Payload) (now : ℤ)
    (smtpConfigured transmissionOk : Bool) : HandlerResult :=
  match dlookup s.online_users sid with
  | none => ⟨s, [], none, false, false⟩
  | some user =>
    let sosId := genSosId now sid
    let s1 := { s with active_sos_rooms := dinsert s.active_sos_rooms sid sosId }
    let initial_location :=
      match dlookup s1.user_locations sid with
      | some loc => loc.toPayload
      | none => data
    let record : SOSRecord :=
      { id := sosId, user_sid := sid, user_name := user.name,
        start_ts := dictGetD initial_location.ts (.num (now : ℚ)),
        status := "ACTIVE", end_ts := none,
        location_log := [initial_location] }
    let s2 := { s1 with sos_records := dinsert s1.sos_records sosId record }
    let lat := dictGet initial_location.lat
    let lng := dictGet initial_location.lng
    sosAlertFinish s2 sid sosId lat lng
      (send_emergency_email_to_relative smtpConfigured transmissionOk)

/-- `handle_sos_resolve_internal`: a no-op when the record is missing;
otherwise sets status/end_ts, pops the `sid → sos_id` mapping, and emits the
room-wide `sos_resolved` followed by `sos_resolved_final` to the owner. -/
def handle_sos_resolve_internal (s : ServerState) (sid : String) (sosId : String)
    (now : ℤ) : ServerState × List Emission :=
  match dlookup s.sos_records sosId with
  | none => (s, [])
  | some record =>
    let record1 := { record with status := "RESOLVED", end_ts := some now }
    let s1 := { s with
      sos_records := dinsert s.sos_records sosId record1
      active_sos_rooms := derase s.active_sos_rooms sid }
    (s1, [.sos_resolved sosId sosId,
          .sos_resolved_final record1.user_sid sosId record1.location_log.length])

/-- The `sos_resolve` handler: with no active mapping it unicasts `sos_error`
to the caller and returns. -/
def handle_sos_resolve (s : ServerState) (sid : String) (now : ℤ) :
    ServerState × List Emission :=
  match dlookup s.active_sos_rooms sid with
  | none => (s, [.sos_error sid "No active SOS found."])
  | some sosId => handle_sos_resolve_internal s sid sosId now

/-- The delayed tail of `handle_sos_alert` (after `socketio.sleep(30)`): it
re-validates that the `sid → sos_id` mapping still points at the same id
before resolving. -/
def autoResolveFire (s : ServerState) (sid : String) (sosId : String) (now : ℤ) :
    ServerState × List Emission :=
  if dlookup s.active_sos_rooms sid = some sosId then
    handle_sos_resolve_internal s sid sosId now
  else (s, [])

/-- Number of `SOS_RECORDS` entries owned by `sid` whose status is ACTIVE. -/
def countActiveOwned (s : ServerState) (sid : String) : Nat :=
  (s.sos_records.filter (fun kv => kv.2.user_sid == sid && kv.2.status == "ACTIVE")).length

/-- The inline Haversine computation of `calculate_emergency_carbon_footprint`
(`R = 6371` km, coordinates in degrees, `math.radians d = d * pi / 180`),
with Python floats modelled as real numbers. -/
noncomputable def haversine_km (lat1 lng1 lat2 lng2 : ℝ) : ℝ :=
  let rad : ℝ → ℝ := fun d => d * (Real.pi / 180)
  let dlat := rad lat2 - rad lat1
  let dlng := rad lng2 - rad lng1
  let a := Real.sin (dlat / 2) ^ 2 +
    Real.cos (rad lat1) * Real.cos (rad lat2) * Real.sin (dlng / 2) ^ 2
  let c := 2 * Real.arcsin (Real.sqrt a)
  6371 * c

/-- `entry.get('lat', 0)` as consumed by `math.radians`: an absent key
defaults to `0`, a numeric value is used as-is, and any other value raises
`TypeError` inside the loop. -/
def coordOf (field : Option PyVal) : Option ℚ :=
  match field with
  | none => some 0
  | some (.num q) => some q
  | some _ => none

/-- Distance contributed by one consecutive pair of log entries; `none` when
a coordinate raises. -/
noncomputable def pairDist? (prev curr : Payload) : Option ℝ := do
  let la1 ← coordOf prev.lat
  let lo1 ← coordOf prev.lng
  let la2 ← coordOf curr.lat
  let lo2 ← coordOf curr.lng
  pure (haversine_km (la1 : ℝ) (lo1 : ℝ) (la2 : ℝ) (lo2 : ℝ))

/-- The accumulation loop `for i in range(1, len(location_log))` over
`total_distance`, threading the possibility of a raised exception. -/
noncomputable def totalDistance? (log : List Payload) : Option ℝ :=
  (log.zip log.tail).foldlM (fun acc pr => (pairDist? pr.1 pr.2).map (fun d => acc + d)) 0

/-- `calculate_emergency_carbon_footprint`: `0` for an empty (falsy) or
single-entry log, otherwise the summed pairwise distance times the emergency
vehicle carbon factor of 150 g CO2 per km. -/
noncomputable def calculate_emergency_carbon_footprint (record : SOSRecord) : Option ℝ :=
  if record.location_log = [] then some 0
  else if record.location_log.length < 2 then some 0
  else (totalDistance? record.location_log).map (fun d => d * 150)

/-- Spec-side pair distance for the refinement statement, with absent
coordinates read as their `0` default. -/
noncomputable def pairDistD (prev curr : Payload) : ℝ :=
  haversine_km (((coordOf prev.lat).getD 0 : ℚ) : ℝ) (((coordOf prev.lng).getD 0 : ℚ) : ℝ)
    (((coordOf curr.lat).getD 0 : ℚ) : ℝ) (((coordOf curr.lng).getD 0 : ℚ) : ℝ)

/-- Modelled from the spec: "computed pairwise over consecutive entries in
`location_log` using great-circle distance (haversine) between each adjacent
pair, summed" — the sum of haversine distances over consecutive pairs. -/
noncomputable def spec_pairwise_sum (log : List Payload) : ℝ :=
  ((log.zip log.tail).map (fun pr => pairDistD pr.1 pr.2)).sum

/-! Concrete fixtures used by the witness instantiations. -/

def wUser : User := { id := "u1", name := "Asha", email := none }

def wLoc : Loc := { lat := 23, lng := 77, ts := 1000, accuracy := none }

def wRecord : SOSRecord :=
  { id := "sos_1000_c", user_sid := "c", user_name := "Asha", start_ts := .num 1000,
    status := "ACTIVE", end_ts := none, location_log := [wLoc.toPayload] }

def wRecordNoLog : SOSRecord := { wRecord with location_log := [] }

def wStateJoined : ServerState :=
  { online_users := [("c", wUser)], user_locations := [], sos_records := [],
    active_sos_rooms := [] }

def wStateLocated : ServerState :=
  { wStateJoined with user_locations := [("c", wLoc)] }

def wStateActive : ServerState :=
  { wStateLocated with
    sos_records := [("sos_1000_c", wRecord)]
    active_sos_rooms := [("c", "sos_1000_c")] }

/-- A location payload whose latitude is present but not numeric. -/
def wBadPayload : Payload :=
  { lat := some (.nonNum true), lng := some (.num 77) }

/-! Concrete runs for the double-trigger exhibit and the join/update/trigger/
resolve scenario. -/

/-- State after `conn1` joins and reports a valid location at ts 1000. -/
def dtState : ServerState :=
  (location_update (on_join ServerState.empty "conn1" { name := some "A" }).1 "conn1"
    { lat := some (.num 23), lng := some (.num 77), ts := some (.num 1000) } 1001).1

/-- Run of two `sos_alert`s from `conn1` (seconds 1005 and 1010) with no
resolve in between. -/
def dtRun : HandlerResult :=
  handle_sos_alert
    (handle_sos_alert dtState "conn1" Payload.empty 1005 true true).state
    "conn1" Payload.empty 1010 true true

/-- Scenario state after `conn1` joins and reports lat 23.25, lng 77.41 at
ts 1000 (the wall clock reading 1001). -/
def scState2 : ServerState :=
  (location_update (on_join ServerState.empty "conn1" { name := some "A" }).1 "conn1"
    { lat := some (.num (Rat.mk' 93 4)), lng := some (.num (Rat.mk' 7741 100)),
      ts := some (.num 1000) } 1001).1

/-- Scenario trigger at second 1005. -/
def scAlert : HandlerResult := handle_sos_alert scState2 "conn1" Payload.empty 1005 true true

/-- The scenario's generated sos id. -/
def scSosId : String := genSosId 1005 "conn1"

/-- Scenario state after two further valid location updates at ts 1010 and
ts 1020 while the session is ACTIVE. -/
def scState4 : ServerState :=
  (location_update
    (location_update scAlert.state "conn1"
      { lat := some (.num (Rat.mk' 1163 50)), lng := some (.num (Rat.mk' 3871 50)),
        ts := some (.num 1010) } 1011).1
    "conn1"
    { lat := some (.num (Rat.mk' 2327 100)), lng := some (.num (Rat.mk' 7743 100)),
      ts := some (.num 1020) } 1021).1

/-- Scenario manual resolve at second 1030. -/
def scResolve : ServerState × List Emission := handle_sos_resolve scState4 "conn1" 1030

/-- A location payload carrying the falsy timestamp `0`. -/
def wTsZeroPayload : Payload :=
  { lat := some (.num 23), lng := some (.num 77), ts := some (.num 0) }

/-! Helper lemmas about the dictionary model and the footprint computation. -/

theorem dlookup_dinsert_self {α : Type} (m : Dict α) (k : String) (v : α) :
    dlookup (dinsert m k v) k = some v := by
  induction m with
  | nil => simp [dinsert, dlookup]
  | cons kv rest ih =>
    by_cases h : kv.1 = k
    · simp [dinsert, dlookup, h]
    · simp [dinsert, dlookup, h, ih]

theorem dlookup_derase_self {α : Type} (m : Dict α) (k : String) :
    dlookup (derase m k) k = none := by
  induction m with
  | nil => rfl
  | cons kv rest ih =>
    by_cases h : kv.1 = k
    · simp [derase, h, ih]
    · simp [derase, dlookup, h, ih]

theorem ratTrunc_intCast (n : ℤ) : ratTrunc ((n : ℚ)) = n := by
  by_cases h : (0 : ℚ) ≤ (n : ℚ)
  · simp [ratTrunc, h, Int.floor_intCast]
  · simp [ratTrunc, h, Int.ceil_intCast]

theorem haversine_km_self (la lo : ℝ) : haversine_km la lo la lo = 0 := by
  simp [haversine_km]

theorem pairDist_eq_some {a b : Payload} (x1 x2 x3 x4 : ℚ)
    (h1 : coordOf a.lat = some x1) (h2 : coordOf a.lng = some x2)
    (h3 : coordOf b.lat = some x3) (h4 : coordOf b.lng = some x4) :
    pairDist? a b = some (pairDistD a b) := by
  simp [pairDist?, pairDistD, h1, h2, h3, h4]

theorem pairDist_isSome_eq {a b : Payload} (h : (pairDist? a b).isSome) :
    pairDist? a b = some (pairDistD a b) := by
  cases e1 : coordOf a.lat with
  | none => simp [pairDist?, e1] at h
  | some x1 =>
    cases e2 : coordOf a.lng with
    | none => simp [pairDist?, e1, e2] at h
    | some x2 =>
      cases e3 : coordOf b.lat with
      | none => simp [pairDist?, e1, e2, e3] at h
      | some x3 =>
        cases e4 : coordOf b.lng with
        | none => simp [pairDist?, e1, e2, e3, e4] at h
        | some x4 => exact pairDist_eq_some x1 x2 x3 x4 e1 e2 e3 e4

theorem foldlM_pairDist (l : List (Payload × Payload)) (acc : ℝ)
    (h : ∀ pr ∈ l, (pairDist? pr.1 pr.2).isSome) :
    l.foldlM (fun acc pr => (pairDist? pr.1 pr.2).map (fun d => acc + d)) acc
      = some (acc + (l.map (fun pr => pairDistD pr.1 pr.2)).sum) := by
  induction l generalizing acc with
  | nil => simp
  | cons pr rest ih =>
    have h1 : (pairDist? pr.1 pr.2).isSome := h pr (by simp)
    have hrest : ∀ q ∈ rest, (pairDist? q.1 q.2).isSome := by
      intro q hq; exact h q (by simp [hq])
    have hd : pairDist? pr.1 pr.2 = some (pairDistD pr.1 pr.2) := pairDist_isSome_eq h1
    simp only [List.foldlM_cons, hd, Option.map_some', Option.bind_eq_bind,
      Option.some_bind]
    rw [ih (acc + pairDistD pr.1 pr.2) hrest]
    simp [add_assoc]

theorem dictGet_some (v : PyVal) : dictGet (some v) = v := rfl

theorem dictGet_none : dictGet none = PyVal.none_ := rfl

theorem string_data_inj {a b : String} (h : a.data = b.data) : a = b := by
  cases a with
  | mk d1 =>
    cases b with
    | mk d2 =>
      simp only [String.data] at h
      subst h
      rfl

theorem string_append_left_cancel {p a b : String} (h : p ++ a = p ++ b) : a = b := by
  have hd : p.data ++ a.data = p.data ++ b.data := by
    have h2 := congrArg String.data h
    simpa [String.data_append] using h2
  exact string_data_inj (List.append_cancel_left hd)

/-! The claims. -/

/-- Claim C4: a `sos_resolve` from a connection with no active SOS session
(no entry in `ACTIVE_SOS_ROOMS`) unicasts an `sos_error` to the caller only
and leaves the entire shared state — presence registry, location tracker,
SOS records and active-SOS map — unchanged. -/
theorem sos_resolve_no_active_error_only (s : ServerState) (sid : String) (now : ℤ)
    (h : dlookup s.active_sos_rooms sid = none) :
    handle_sos_resolve s sid now = (s, [Emission.sos_error sid "No active SOS found."]) := by
  simp [handle_sos_resolve, h]

theorem sos_resolve_no_active_error_only_witness :
    dlookup ServerState.empty.active_sos_rooms "c" = none ∧
    handle_sos_resolve ServerState.empty "c" 99 =
      (ServerState.empty, [Emission.sos_error "c" "No active SOS found."]) :=
  ⟨rfl, sos_resolve_no_active_error_only ServerState.empty "c" 99 rfl⟩

/-- Claim C3: the delayed auto-resolve transitions the session to RESOLVED at
most once against any interleaving: (a) it is a no-op — no state change and
no emission — whenever the connection's active mapping no longer points at
its sos_id; (b) after a manual resolve the delayed fire neither mutates state
(so `end_ts` keeps the manual value) nor re-emits the final resolution event;
(c) firing the delayed task twice leaves the post-first-fire state untouched
and emits nothing the second time. -/
theorem auto_resolve_fires_at_most_once :
    (∀ (s : ServerState) (sid sosId : String) (now : ℤ),
      dlookup s.active_sos_rooms sid ≠ some sosId →
      autoResolveFire s sid sosId now = (s, [])) ∧
    (∀ (s : ServerState) (sid sosId : String) (now now2 : ℤ),
      dlookup s.active_sos_rooms sid = some sosId →
      autoResolveFire (handle_sos_resolve s sid now).1 sid sosId now2 =
        ((handle_sos_resolve s sid now).1, [])) ∧
    (∀ (s : ServerState) (sid sosId : String) (now now2 : ℤ),
      autoResolveFire (autoResolveFire s sid sosId now).1 sid sosId now2 =
        ((autoResolveFire s sid sosId now).1, [])) := by
  refine ⟨?_, ?_, ?_⟩
  · intro s sid sosId now h
    simp [autoResolveFire, h]
  · intro s sid sosId now now2 h
    cases hrec : dlookup s.sos_records sosId with
    | none =>
      simp [handle_sos_resolve, h, handle_sos_resolve_internal, hrec, autoResolveFire]
    | some record =>
      simp [handle_sos_resolve, h, handle_sos_resolve_internal, hrec, autoResolveFire,
        dlookup_derase_self]
  · intro s sid sosId now now2
    by_cases h : dlookup s.active_sos_rooms sid = some sosId
    · cases hrec : dlookup s.sos_records sosId with
      | none => simp [autoResolveFire, h, handle_sos_resolve_internal, hrec]
      | some record =>
        simp [autoResolveFire, h, handle_sos_resolve_internal, hrec, dlookup_derase_self]
    · simp [autoResolveFire, h]

theorem auto_resolve_fires_at_most_once_witness :
    (dlookup wStateActive.active_sos_rooms "c" = some "sos_1000_c" ∧
      autoResolveFire (handle_sos_resolve wStateActive "c" 1010).1 "c" "sos_1000_c" 1030 =
        ((handle_sos_resolve wStateActive "c" 1010).1, [])) ∧
    (dlookup ServerState.empty.active_sos_rooms "c" ≠ some "sos_1000_c" ∧
      autoResolveFire ServerState.empty "c" "sos_1000_c" 1030 = (ServerState.empty, [])) :=
  ⟨⟨by decide, auto_resolve_fires_at_most_once.2.1 wStateActive "c" "sos_1000_c" 1010 1030
      (by decide)⟩,
   ⟨by decide, auto_resolve_fires_at_most_once.1 ServerState.empty "c" "sos_1000_c" 1030
      (by decide)⟩⟩

/-- Claim C2 counterexample: the claim quantifies over all session ids the
transport layer may assign, but the generated id embeds only the first four
characters of the session id, so two distinct connections sharing a
four-character head collide within the same second. -/
theorem sos_id_same_second_collision :
    ("abcd1" : String) ≠ "abcd2" ∧
    genSosId 1000 "abcd1" = genSosId 1000 "abcd2" := by
  constructor
  · decide
  · rfl

/-- Claim C2 (amended): `sos_id`s generated within the same second for
distinct connections are pairwise distinct provided the session ids differ in
their first four characters (the id is the second plus `sid[:4]`). -/
theorem sos_id_distinct_of_take4_ne (now : ℤ) (sid1 sid2 : String)
    (h : sid1.take 4 ≠ sid2.take 4) :
    genSosId now sid1 ≠ genSosId now sid2 := by
  intro hEq
  exact h (string_append_left_cancel hEq)

theorem sos_id_distinct_of_take4_ne_witness :
    ("abcde" : String).take 4 ≠ ("wxyz" : String).take 4 ∧
    genSosId 1000 "abcde" ≠ genSosId 1000 "wxyz" :=
  ⟨by decide, sos_id_distinct_of_take4_ne 1000 "abcde" "wxyz" (by decide)⟩

/-- Claim C1 exhibit: a second `sos_alert` from the same connection while its
first SOS session is still ACTIVE leaves two SOS records with status ACTIVE
owned by that connection — the overwritten mapping orphans the first record,
whose own delayed fire is then a no-op against the stale id, so it stays
ACTIVE forever.  This contradicts the claimed at-most-one-ACTIVE invariant. -/
theorem double_trigger_two_active_records :
    countActiveOwned dtRun.state "conn1" = 2
    ∧ ((dlookup dtRun.state.sos_records (genSosId 1005 "conn1")).map
        (fun rc => rc.status) = some "ACTIVE")
    ∧ ((dlookup dtRun.state.sos_records (genSosId 1010 "conn1")).map
        (fun rc => rc.status) = some "ACTIVE")
    ∧ dlookup dtRun.state.active_sos_rooms "conn1" = some (genSosId 1010 "conn1")
    ∧ autoResolveFire dtRun.state "conn1" (genSosId 1005 "conn1") 1035 = (dtRun.state, []) := by
  decide

/-- Claim C8: join, then a location update at ts 1000, then trigger — the SOS
record's start time is 1000 (taken from the stored sample, not the trigger
time 1005) and its log has length 1; two further valid updates while ACTIVE
grow the log to length 3, and the resolution-final notification reports a
sample count of 3. -/
theorem sos_scenario_samples_and_counts :
    ((dlookup scAlert.state.sos_records scSosId).map
        (fun rc => (rc.start_ts, rc.location_log.length)) = some (.num 1000, 1))
    ∧ ((dlookup scState4.sos_records scSosId).map
        (fun rc => rc.location_log.length) = some 3)
    ∧ scResolve.2 = [.sos_resolved scSosId scSosId, .sos_resolved_final "conn1" scSosId 3]
    ∧ ((dlookup scResolve.1.sos_records scSosId).map (fun rc => (rc.status, rc.end_ts)) =
        some ("RESOLVED", some 1030)) := by
  decide

/-- Claim C5: the footprint estimate equals the sum of haversine great-circle
distances between consecutive `location_log` entries times the fixed factor
of 150 g CO2 per km; it is exactly 0 for a log of length 0 or 1, and exactly
0 for a log of two samples at identical coordinates. -/
theorem footprint_pairwise_haversine :
    (∀ record : SOSRecord,
      (∀ p ∈ record.location_log, (coordOf p.lat).isSome ∧ (coordOf p.lng).isSome) →
      calculate_emergency_carbon_footprint record
        = some (spec_pairwise_sum record.location_log * 150)) ∧
    (∀ record : SOSRecord, record.location_log.length ≤ 1 →
      calculate_emergency_carbon_footprint record = some 0) ∧
    (∀ (record : SOSRecord) (p : Payload) (la lo : ℚ),
      record.location_log = [p, p] → coordOf p.lat = some la → coordOf p.lng = some lo →
      calculate_emergency_carbon_footprint record = some 0) := by
  refine ⟨?_, ?_, ?_⟩
  · intro record h
    rcases hlog : record.location_log with _ | ⟨x, _ | ⟨y, rest⟩⟩
    · simp [calculate_emergency_carbon_footprint, hlog, spec_pairwise_sum]
    · simp [calculate_emergency_carbon_footprint, hlog, spec_pairwise_sum]
    · have hpairs : ∀ pr ∈ (x :: y :: rest).zip (x :: y :: rest).tail,
          (pairDist? pr.1 pr.2).isSome := by
        intro pr hpr
        have hm := List.of_mem_zip hpr
        have h1 := h pr.1 (by rw [hlog]; exact hm.1)
        have h2 := h pr.2 (by rw [hlog]; exact List.mem_of_mem_tail hm.2)
        obtain ⟨x1, e1⟩ := Option.isSome_iff_exists.mp h1.1
        obtain ⟨x2, e2⟩ := Option.isSome_iff_exists.mp h1.2
        obtain ⟨x3, e3⟩ := Option.isSome_iff_exists.mp h2.1
        obtain ⟨x4, e4⟩ := Option.isSome_iff_exists.mp h2.2
        rw [pairDist_eq_some x1 x2 x3 x4 e1 e2 e3 e4]
        rfl
      unfold calculate_emergency_carbon_footprint totalDistance?
      rw [hlog]
      rw [if_neg (by simp), if_neg (by simp only [List.length_cons]; omega)]
      rw [foldlM_pairDist _ 0 hpairs]
      simp [spec_pairwise_sum]
  · intro record h
    rcases hlog : record.location_log with _ | ⟨x, rest⟩
    · simp [calculate_emergency_carbon_footprint, hlog]
    · rw [hlog] at h
      simp only [List.length_cons] at h
      have hr : rest = [] := List.length_eq_zero.mp (by omega)
      subst hr
      simp [calculate_emergency_carbon_footprint, hlog]
  · intro record p la lo hlog h1 h2
    simp [calculate_emergency_carbon_footprint, hlog, totalDistance?, pairDist?,
      h1, h2, haversine_km_self]

theorem footprint_pairwise_haversine_witness :
    wRecordNoLog.location_log.length ≤ 1 ∧
    calculate_emergency_carbon_footprint wRecordNoLog = some 0 :=
  ⟨by decide, footprint_pairwise_haversine.2.1 wRecordNoLog (by decide)⟩

theorem buildLoc_eq_none (lat lng ts accuracy : PyVal)
    (h : lat.toFloat? = none ∨ lng.toFloat? = none ∨ accOk accuracy = none) :
    buildLoc lat lng ts accuracy = none := by
  rcases h with h | h | h
  · simp [buildLoc, h]
  · cases e : lat.toFloat? <;> simp [buildLoc, e, h]
  · cases e1 : lat.toFloat? <;> cases e2 : lng.toFloat? <;> cases e3 : pyToInt? ts <;>
      simp [buildLoc, e1, e2, e3, h]

/-- Claim C6: a `location_update` whose lat, lng, or accuracy is present but
not convertible to a number is dropped silently: no error is surfaced to the
caller, no broadcast occurs, and the whole shared state (in particular the
location tracker entry for that session) is unchanged. -/
theorem location_update_malformed_dropped (s : ServerState) (sid : String)
    (data : Payload) (now : ℤ)
    (hlat : dictGet data.lat ≠ PyVal.none_) (hlng : dictGet data.lng ≠ PyVal.none_)
    (h : (dictGet data.lat).toFloat? = none ∨ (dictGet data.lng).toFloat? = none
        ∨ accOk (dictGet data.accuracy) = none) :
    location_update s sid data now = (s, []) := by
  have hb := buildLoc_eq_none (dictGet data.lat) (dictGet data.lng)
    (if (dictGet data.ts).truthy then dictGet data.ts else .num ((now : ℤ) : ℚ))
    (dictGet data.accuracy) h
  simp [location_update, hlat, hlng, hb]

theorem location_update_malformed_dropped_witness :
    dictGet wBadPayload.lat ≠ PyVal.none_ ∧ dictGet wBadPayload.lng ≠ PyVal.none_ ∧
    (dictGet wBadPayload.lat).toFloat? = none ∧
    location_update ServerState.empty "c" wBadPayload 5 = (ServerState.empty, []) :=
  ⟨by decide, by decide, by decide,
    location_update_malformed_dropped ServerState.empty "c" wBadPayload 5
      (by decide) (by decide) (Or.inl (by decide))⟩

theorem sosAlertFinish_indep (s2 : ServerState) (sid sosId : String) (lat lng : PyVal)
    (e1 e2 : Bool) :
    (sosAlertFinish s2 sid sosId lat lng e1).state
      = (sosAlertFinish s2 sid sosId lat lng e2).state
    ∧ (sosAlertFinish s2 sid sosId lat lng e1).emissions
      = (sosAlertFinish s2 sid sosId lat lng e2).emissions
    ∧ (sosAlertFinish s2 sid sosId lat lng e1).email_args
      = (sosAlertFinish s2 sid sosId lat lng e2).email_args
    ∧ (sosAlertFinish s2 sid sosId lat lng e1).crashed
      = (sosAlertFinish s2 sid sosId lat lng e2).crashed := by
  cases lat <;> cases lng <;> simp [sosAlertFinish]

/-- Claim C7: a failure of the emergency email transmission never changes
what `sos_alert` does to the shared state or what it emits (so it cannot
prevent session creation); and for a registered connection with a stored
location, the handler creates the ACTIVE record, installs the
`sid → sos_id` mapping, and emits the `sos_started` acknowledgment to the
caller regardless of the email outcome. -/
theorem sos_alert_email_failure_harmless :
    (∀ (s : ServerState) (sid : String) (data : Payload) (now : ℤ) (c1 t1 c2 t2 : Bool),
      (handle_sos_alert s sid data now c1 t1).state
        = (handle_sos_alert s sid data now c2 t2).state
      ∧ (handle_sos_alert s sid data now c1 t1).emissions
        = (handle_sos_alert s sid data now c2 t2).emissions
      ∧ (handle_sos_alert s sid data now c1 t1).crashed
        = (handle_sos_alert s sid data now c2 t2).crashed) ∧
    (∀ (s : ServerState) (sid : String) (data : Payload) (now : ℤ) (c t : Bool)
        (user : User) (loc : Loc),
      dlookup s.online_users sid = some user →
      dlookup s.user_locations sid = some loc →
      ((dlookup (handle_sos_alert s sid data now c t).state.sos_records
          (genSosId now sid)).map (fun rc => rc.status) = some "ACTIVE"
        ∧ dlookup (handle_sos_alert s sid data now c t).state.active_sos_rooms sid
            = some (genSosId now sid)
        ∧ (handle_sos_alert s sid data now c t).emissions
            = [Emission.sos_started sid (genSosId now sid)]
        ∧ (handle_sos_alert s sid data now c t).crashed = false)) := by
  constructor
  · intro s sid data now c1 t1 c2 t2
    cases h : dlookup s.online_users sid with
    | none => simp [handle_sos_alert, h]
    | some user =>
      simp only [handle_sos_alert, h]
      exact ⟨(sosAlertFinish_indep _ _ _ _ _ _ _).1,
        (sosAlertFinish_indep _ _ _ _ _ _ _).2.1,
        (sosAlertFinish_indep _ _ _ _ _ _ _).2.2.2⟩
  · intro s sid data now c t user loc hu hl
    simp [handle_sos_alert, hu, hl, Loc.toPayload, dictGet, sosAlertFinish,
      dlookup_dinsert_self]

theorem sos_alert_email_failure_harmless_witness :
    dlookup wStateLocated.online_users "c" = some wUser ∧
    dlookup wStateLocated.user_locations "c" = some wLoc ∧
    ((dlookup (handle_sos_alert wStateLocated "c" Payload.empty 2000 true false).state.sos_records
        (genSosId 2000 "c")).map (fun rc => rc.status) = some "ACTIVE"
      ∧ dlookup (handle_sos_alert wStateLocated "c" Payload.empty 2000 true false).state.active_sos_rooms "c"
          = some (genSosId 2000 "c")
      ∧ (handle_sos_alert wStateLocated "c" Payload.empty 2000 true false).emissions
          = [Emission.sos_started "c" (genSosId 2000 "c")]
      ∧ (handle_sos_alert wStateLocated "c" Payload.empty 2000 true false).crashed = false) :=
  ⟨by decide, by decide,
    sos_alert_email_failure_harmless.2 wStateLocated "c" Payload.empty 2000 true false
      wUser wLoc (by decide) (by decide)⟩

/-- Claim C9: a `location_update` with numeric lat/lng whose `ts` is falsy
(0, `None`, or absent — `data.get("ts") or int(time.time())`) stores the
current wall-clock second as the sample's timestamp, not the supplied
value. -/
theorem location_update_falsy_ts_wall_clock (s : ServerState) (sid : String)
    (data : Payload) (now : ℤ) (a b : ℚ) (acc : Option ℚ)
    (hlat : data.lat = some (.num a)) (hlng : data.lng = some (.num b))
    (hts : (dictGet data.ts).truthy = false)
    (hacc : accOk (dictGet data.accuracy) = some acc) :
    dlookup (location_update s sid data now).1.user_locations sid
      = some { lat := a, lng := b, ts := now, accuracy := acc } := by
  have hbuild : buildLoc (.num a) (.num b) (.num ((now : ℤ) : ℚ)) (dictGet data.accuracy)
      = some { lat := a, lng := b, ts := now, accuracy := acc } := by
    simp [buildLoc, PyVal.toFloat?, pyToInt?, ratTrunc_intCast, hacc]
  simp only [location_update, hlat, hlng, hts, dictGet_some, Bool.false_eq_true,
    if_false]
  rw [if_neg (by simp)]
  rw [hbuild]
  split
  · simp_all
  · rename_i loc heq
    obtain rfl := (Option.some.inj heq).symm
    split
    · simp [dlookup_dinsert_self]
    · split <;> simp [dlookup_dinsert_self]

theorem location_update_falsy_ts_wall_clock_witness :
    wTsZeroPayload.lat = some (.num 23) ∧ wTsZeroPayload.lng = some (.num 77) ∧
    (dictGet wTsZeroPayload.ts).truthy = false ∧
    dlookup (location_update ServerState.empty "c" wTsZeroPayload 42).1.user_locations "c"
      = some { lat := 23, lng := 77, ts := 42, accuracy := none } :=
  ⟨by decide, by decide, by decide,
    location_update_falsy_ts_wall_clock ServerState.empty "c" wTsZeroPayload 42 23 77 none
      (by decide) (by decide) (by decide) (by decide)⟩

/-- Claim C10: a `sos_alert` from a registered connection with no stored
location sample still creates an ACTIVE SOS record, using the event payload
itself as the initial location sample: with an empty payload the log starts
as the one-element list holding that empty sample, the dispatch hook is
invoked with `None` lat and lng, and the start time falls back to the
current wall-clock second. -/
theorem sos_alert_no_location_payload_fallback (s : ServerState) (sid : String)
    (now : ℤ) (c t : Bool) (user : User)
    (hu : dlookup s.online_users sid = some user)
    (hl : dlookup s.user_locations sid = none) :
    dlookup (handle_sos_alert s sid Payload.empty now c t).state.sos_records
        (genSosId now sid)
      = some { id := genSosId now sid, user_sid := sid, user_name := user.name,
               start_ts := .num ((now : ℤ) : ℚ), status := "ACTIVE", end_ts := none,
               location_log := [Payload.empty] }
    ∧ (handle_sos_alert s sid Payload.empty now c t).email_args
        = some (PyVal.none_, PyVal.none_) := by
  simp [handle_sos_alert, hu, hl, Payload.empty, dictGet, dictGetD, sosAlertFinish,
    dlookup_dinsert_self]

theorem sos_alert_no_location_payload_fallback_witness :
    dlookup wStateJoined.online_users "c" = some wUser ∧
    dlookup wStateJoined.user_locations "c" = none ∧
    (dlookup (handle_sos_alert wStateJoined "c" Payload.empty 3000 true true).state.sos_records
        (genSosId 3000 "c")
      = some { id := genSosId 3000 "c", user_sid := "c", user_name := wUser.name,
               start_ts := .num ((3000 : ℤ) : ℚ), status := "ACTIVE", end_ts := none,
               location_log := [Payload.empty] }
    ∧ (handle_sos_alert wStateJoined "c" Payload.empty 3000 true true).email_args
        = some (PyVal.none_, PyVal.none_)) :=
  ⟨by decide, by decide,
    sos_alert_no_location_payload_fallback wStateJoined "c" 3000 true true wUser
      (by decide) (by decide)⟩

end Raahi
